import Mathlib

/-!
Verification of the device-service lifecycle core of an EdgeX-style C SDK.

The development shallowly embeds two source files:
- devsdk-base.c: singly linked name/value pair lists, protocol property
  lists, their lookup, typed accessors, duplication and equality;
- the service lifecycle file: startConfigured, devsdk_service_start,
  devsdk_post_readings, devsdk_service_stop.

C linked lists become Lean lists; external collaborators (REST clients,
registry, driver, scheduler, HTTP server, libc string conversions) are
modelled as mock inputs, and each lifecycle function returns the ordered
trace of calls it makes on its collaborators together with the final
error code, so that temporal claims become statements about traces.
-/

namespace DevSdk

/-! ## Name/value pair lists (devsdk-base.c) -/

/-- A node of the C devsdk_nvpairs singly linked list: a (name, value)
pair of strings. The list itself is a Lean list of these. -/
structure devsdk_nvpairs where
  name : String
  value : String
  deriving Repr, DecidableEq

/-- devsdk_nvpairs_new: allocates a pair and prepends it to the list. -/
def devsdk_nvpairs_new (name value : String) (list : List devsdk_nvpairs) :
    List devsdk_nvpairs :=
  { name := name, value := value } :: list

/-- devsdk_nvpairs_value: if the name argument is non-NULL (some), walk the
list and return the value of the first pair whose name matches (strcmp);
NULL (none) otherwise or when no pair matches. -/
def devsdk_nvpairs_value : List devsdk_nvpairs → Option String → Option String
  | _, none => none
  | [], some _ => none
  | p :: rest, some n =>
    if p.name = n then some p.value else devsdk_nvpairs_value rest (some n)

/-- Result of a C string-to-number conversion call in the style of strtol:
the converted value, the offset of the end pointer from the start of the
string, and whether errno was set (range error). The concrete libc
conversions are external to the repository, so the accessors below are
parametrised by the conversion function. -/
structure CStrConv (α : Type) where
  value : α
  consumed : Nat
  rangeError : Bool

/-- Common body of the three typed accessors in devsdk-base.c: look the
name up, require a non-NULL non-empty value, run the conversion with
errno cleared, and only on (errno == 0 and whole string consumed) store
the converted value into the out-parameter. Returns the C bool result
together with the final contents of the out-parameter val. -/
def devsdk_nvpairs_typed_value (conv : String → CStrConv α)
    (nvp : List devsdk_nvpairs) (name : Option String) (val : α) : Bool × α :=
  match devsdk_nvpairs_value nvp name with
  | some v =>
    if v ≠ "" then
      let c := conv v
      if c.rangeError = false ∧ c.consumed = v.length then (true, c.value)
      else (false, val)
    else (false, val)
  | none => (false, val)

/-- devsdk_nvpairs_long_value, with strtol passed in as the model of the
external libc conversion. -/
def devsdk_nvpairs_long_value (strtol : String → CStrConv Int)
    (nvp : List devsdk_nvpairs) (name : Option String) (val : Int) : Bool × Int :=
  devsdk_nvpairs_typed_value strtol nvp name val

/-- devsdk_nvpairs_ulong_value, with strtoul passed in as the model of the
external libc conversion. -/
def devsdk_nvpairs_ulong_value (strtoul : String → CStrConv Nat)
    (nvp : List devsdk_nvpairs) (name : Option String) (val : Nat) : Bool × Nat :=
  devsdk_nvpairs_typed_value strtoul nvp name val

/-- devsdk_nvpairs_float_value, with strtof passed in as the model of the
external libc conversion; the float carrier type is kept abstract. -/
def devsdk_nvpairs_float_value {F : Type} (strtof : String → CStrConv F)
    (nvp : List devsdk_nvpairs) (name : Option String) (val : F) : Bool × F :=
  devsdk_nvpairs_typed_value strtof nvp name val

/-- devsdk_nvpairs_dup: element-wise copy built through a tail pointer, so
the copy preserves the order of the original. -/
def devsdk_nvpairs_dup : List devsdk_nvpairs → List devsdk_nvpairs
  | [] => []
  | p :: rest => { name := p.name, value := p.value } :: devsdk_nvpairs_dup rest

/-- The inner search of the LIST_EQUAL_FUNCTION macro: first element of l2
whose name matches (strcmp). -/
def findByName : List devsdk_nvpairs → String → Option devsdk_nvpairs
  | [], _ => none
  | q :: rest, n => if q.name = n then some q else findByName rest n

/-- devsdk_nvpairs_equal, generated by LIST_EQUAL_FUNCTION with pair_equal:
lengths must agree, and every element of l1 must have a name-match in l2
(first match) with equal value. -/
def devsdk_nvpairs_equal (l1 l2 : List devsdk_nvpairs) : Bool :=
  l1.length = l2.length &&
    l1.all fun p =>
      match findByName l2 p.name with
      | some q => p.value = q.value
      | none => false

/-! ## Protocol properties lists (devsdk-base.c) -/

/-- A node of the C devsdk_protocols list: protocol name plus its
name/value properties. -/
structure devsdk_protocols where
  name : String
  properties : List devsdk_nvpairs
  deriving Repr, DecidableEq

/-- devsdk_protocols_new: prepend a node holding a dup of the properties. -/
def devsdk_protocols_new (name : String) (properties : List devsdk_nvpairs)
    (list : List devsdk_protocols) : List devsdk_protocols :=
  { name := name, properties := devsdk_nvpairs_dup properties } :: list

/-- devsdk_protocols_properties: first node whose name matches, NULL name
gives NULL. -/
def devsdk_protocols_properties :
    List devsdk_protocols → Option String → Option (List devsdk_nvpairs)
  | _, none => none
  | [], some _ => none
  | p :: rest, some n =>
    if p.name = n then some p.properties
    else devsdk_protocols_properties rest (some n)

/-- devsdk_protocols_dup: walks the original front to back and PREPENDS a
copy of each node onto the result, exactly as the C loop does. -/
def devsdk_protocols_dup (e : List devsdk_protocols) : List devsdk_protocols :=
  e.foldl
    (fun result p =>
      { name := p.name, properties := devsdk_nvpairs_dup p.properties } :: result)
    []

/-! ## Lifecycle engine: data model

Error codes live in errorlist.h, outside the given sources; they are
modelled as distinct naturals with 0 as EDGEX_OK, which is all the
lifecycle code observes (err->code tested against 0, specific constants
assigned on specific failures). -/

def EDGEX_OK : Nat := 0

def EDGEX_INVALID_ARG : Nat := 1

def EDGEX_REMOTE_SERVER_DOWN : Nat := 2

def EDGEX_DRIVER_UNSTART : Nat := 3

/-- The metadata addressable record, restricted to the fields the
lifecycle core reads or writes. -/
structure Addressable where
  origin : Nat
  name : String
  method : String
  protocol : String
  address : String
  port : Nat
  path : String
  deriving Repr, DecidableEq

inductive OperatingState where
  | enabled
  | disabled
  deriving Repr, DecidableEq

inductive AdminState where
  | locked
  | unlocked
  deriving Repr, DecidableEq

/-- The metadata DeviceService record as built and read by startConfigured. -/
structure DeviceService where
  name : String
  addressable : Addressable
  operatingState : OperatingState
  adminState : AdminState
  created : Nat
  labels : List String
  deriving Repr, DecidableEq

/-- Observable actions of startConfigured on its collaborators, in the
order the C code performs them. Handler registrations get one
constructor per endpoint since each is a distinct call with a constant
path. -/
inductive ScEv where
  | pingData
  | pingMetadata
  | getDeviceservice
  | getAddressable
  | createAddressable (a : Addressable)
  | createDeviceservice (d : DeviceService)
  | updateAddressable (a : Addressable)
  | profilesUpload
  | getDevices
  | populateDevices
  | restServerCreate
  | regCallbackHandler
  | processConfiguredDevices
  | driverInit
  | getWatchers
  | watchlistPopulate
  | schedulerStart
  | regDeviceHandler
  | regDiscoveryHandler
  | regMetricsHandler
  | regConfigHandler
  | regVersionHandler
  | regPingHandler
  | registryRegister
  | logInfo
  | logError
  deriving Repr, DecidableEq

/-- Mock outcomes for every external call startConfigured makes, plus the
configuration fields it reads. An error field of 0 means the call
succeeded; a nonzero value is the code the collaborator stored in the
error out-parameter. -/
structure SCMocks where
  svcName : String
  configServiceHost : Option String
  unameNodename : String
  servicePort : Nat
  labels : List String
  startupmsg : Bool
  millis : Nat
  pingDataErr : Nat
  pingMetadataErr : Nat
  getDSErr : Nat
  getDSResult : Option DeviceService
  getAddrErr : Nat
  getAddrResult : Option Addressable
  createAddrErr : Nat
  createDSErr : Nat
  updateAddrErr : Nat
  profilesUploadErr : Nat
  getDevicesErr : Nat
  restCreateErr : Nat
  configPresent : Bool
  processConfiguredErr : Nat
  driverInitOk : Bool
  getWatchersErr : Nat
  watchersPresent : Bool
  registryPresent : Bool
  registryRegisterErr : Nat

/-- Result of a startConfigured run: the final contents of the error
out-parameter, the trace of collaborator calls, and the addressable
recorded in metadata for this service once the function returns (none if
no record is known to exist). -/
structure SCOut where
  err : Nat
  trace : List ScEv
  metaAddr : Option Addressable
  deriving Repr

/-- The host reported to metadata: config.service.host when set, else the
uname nodename. -/
def resolvedHost (m : SCMocks) : String :=
  match m.configServiceHost with
  | some h => h
  | none => m.unameNodename

/-- The addressable built for the callback channel when none exists. -/
def mkCallbackAddressable (m : SCMocks) (myhost : String) : Addressable :=
  { origin := m.millis
    name := m.svcName
    method := "POST"
    protocol := "HTTP"
    address := myhost
    port := m.servicePort
    path := "/api/v1/callback" }

/-- The DeviceService record built when none exists. The labels loop in C
prepends, so the stored list is the reverse of the configured one. -/
def mkDeviceService (m : SCMocks) (a : Addressable) : DeviceService :=
  { name := m.svcName
    addressable := a
    operatingState := .enabled
    adminState := .unlocked
    created := m.millis
    labels := m.labels.foldl (fun acc l => l :: acc) [] }

/-- Tail of startConfigured after the DeviceService reconcile: profile
upload, device fetch and populate, REST server creation, callback
handler, configured devices, driver init, watchers, scheduler, the six
remaining handlers, registry registration and the startup message.
Returns the final error code and the trace of this part. Note that a
watcher fetch failure is only logged, so its code can survive into the
final error when no registry registration overwrites it. -/
def scTail (m : SCMocks) : Nat × List ScEv :=
  if m.profilesUploadErr ≠ 0 then
    (m.profilesUploadErr, [.profilesUpload])
  else if m.getDevicesErr ≠ 0 then
    (m.getDevicesErr, [.profilesUpload, .getDevices, .logError])
  else if m.restCreateErr ≠ 0 then
    (m.restCreateErr,
      [.profilesUpload, .getDevices, .populateDevices, .restServerCreate])
  else
    let t1 := [ScEv.profilesUpload, .getDevices, .populateDevices,
        .restServerCreate, .regCallbackHandler] ++
      (if m.configPresent then [ScEv.processConfiguredDevices] else [])
    if m.configPresent && m.processConfiguredErr ≠ 0 then
      (m.processConfiguredErr, t1)
    else if !m.driverInitOk then
      (EDGEX_DRIVER_UNSTART, t1 ++ [.driverInit, .logError])
    else
      let t2 := t1 ++ [ScEv.driverInit, .getWatchers] ++
        (if m.getWatchersErr ≠ 0 then [ScEv.logError] else []) ++
        (if m.watchersPresent then [ScEv.logInfo, .watchlistPopulate] else []) ++
        [ScEv.schedulerStart, .regDeviceHandler, .regDiscoveryHandler,
          .regMetricsHandler, .regConfigHandler, .regVersionHandler,
          .regPingHandler]
      if m.registryPresent then
        if m.registryRegisterErr ≠ 0 then
          (m.registryRegisterErr, t2 ++ [.registryRegister, .logError])
        else
          (EDGEX_OK, t2 ++ [ScEv.registryRegister] ++
            (if m.startupmsg then [ScEv.logInfo] else []))
      else
        (m.getWatchersErr,
          t2 ++ (if m.startupmsg then [ScEv.logInfo] else []))

/-- startConfigured: readiness pings, DeviceService/addressable reconcile
against metadata, then the scTail. Mirrors the early-return structure of
the C function. -/
def startConfigured (m : SCMocks) : SCOut :=
  let myhost := resolvedHost m
  if m.pingDataErr ≠ 0 then
    { err := m.pingDataErr, trace := [.pingData], metaAddr := none }
  else if m.pingMetadataErr ≠ 0 then
    { err := m.pingMetadataErr, trace := [.pingData, .pingMetadata],
      metaAddr := none }
  else if m.getDSErr ≠ 0 then
    { err := m.getDSErr,
      trace := [.pingData, .pingMetadata, .getDeviceservice, .logError],
      metaAddr := none }
  else
    match m.getDSResult with
    | none =>
      if m.getAddrErr ≠ 0 then
        { err := m.getAddrErr
          trace := [.pingData, .pingMetadata, .getDeviceservice,
            .getAddressable, .logError]
          metaAddr := none }
      else
        match m.getAddrResult with
        | none =>
          let a := mkCallbackAddressable m myhost
          if m.createAddrErr ≠ 0 then
            { err := m.createAddrErr
              trace := [.pingData, .pingMetadata, .getDeviceservice,
                .getAddressable, .createAddressable a, .logError]
              metaAddr := none }
          else
            let d := mkDeviceService m a
            if m.createDSErr ≠ 0 then
              { err := m.createDSErr
                trace := [.pingData, .pingMetadata, .getDeviceservice,
                  .getAddressable, .createAddressable a,
                  .createDeviceservice d, .logError]
                metaAddr := some a }
            else
              { err := (scTail m).1
                trace := [.pingData, .pingMetadata, .getDeviceservice,
                    .getAddressable, .createAddressable a,
                    .createDeviceservice d] ++ (scTail m).2
                metaAddr := some a }
        | some a =>
          let d := mkDeviceService m a
          if m.createDSErr ≠ 0 then
            { err := m.createDSErr
              trace := [.pingData, .pingMetadata, .getDeviceservice,
                .getAddressable, .createDeviceservice d, .logError]
              metaAddr := some a }
          else
            { err := (scTail m).1
              trace := [.pingData, .pingMetadata, .getDeviceservice,
                  .getAddressable, .createDeviceservice d] ++ (scTail m).2
              metaAddr := some a }
    | some d =>
      if d.addressable.port ≠ m.servicePort ∨ d.addressable.address ≠ myhost then
        let a := { d.addressable with port := m.servicePort, address := myhost }
        if m.updateAddrErr ≠ 0 then
          { err := m.updateAddrErr
            trace := [.pingData, .pingMetadata, .getDeviceservice,
              .logInfo, .updateAddressable a, .logError]
            metaAddr := some d.addressable }
        else
          { err := (scTail m).1
            trace := [.pingData, .pingMetadata, .getDeviceservice,
                .logInfo, .updateAddressable a] ++ (scTail m).2
            metaAddr := some a }
      else
        { err := (scTail m).1
          trace := [.pingData, .pingMetadata, .getDeviceservice] ++ (scTail m).2
          metaAddr := some d.addressable }

/-! ## devsdk_service_start -/

/-- Observable actions of devsdk_service_start outside of bring-up; the
bringup constructor embeds the startConfigured trace. -/
inductive StEv where
  | loadConfig
  | getRegURL
  | registryGet
  | registryPing
  | sleepDelay (secs : Nat)
  | registryGetConfig
  | populateConfig
  | parseToml
  | overrideConfig
  | registryPutConfig
  | queryService (name : String)
  | parseTomlClients
  | pingLogging
  | logInfo
  | logError
  | bringup (e : ScEv)
  deriving Repr, DecidableEq

/-- Mock outcomes for the external calls of devsdk_service_start. The
environment variables are modelled by the integer atoi yields when the
variable is set. regPing gives the outcome of the i-th registry ping. -/
structure StartMocks where
  regURL : Option String
  loadConfigErr : Nat
  tomlRegURL : Option String
  registryGetOk : Bool
  envRetryCount : Option Int
  envRetryWait : Option Int
  regPing : Nat → Bool
  getConfigOk : Bool
  populateConfigErr : Nat
  putConfigErr : Nat
  parseTomlClientsErr : Nat
  useremote : Bool
  pingLoggingErr : Nat
  sc : SCMocks

structure StartOut where
  err : Nat
  trace : List StEv

/-- Effective registry retry count: 5 unless the environment variable is
set to a positive integer. -/
def effRetries (env : Option Int) : Nat :=
  match env with
  | some rc => if rc > 0 then rc.toNat else 5
  | none => 5

/-- Effective inter-retry delay in seconds: 1 unless the environment
variable is set to a positive integer. -/
def effDelay (env : Option Int) : Nat :=
  match env with
  | some rw => if rw > 0 then rw.toNat else 1
  | none => 1

/-- The registry wait loop of devsdk_service_start. It mirrors
while (!ping() && --retries) nanosleep(delay): each iteration pings once;
on failure retries is decremented and, when it is still nonzero, the loop
sleeps and retries. Returns the final value of retries (0 means
exhausted) and the trace of pings and sleeps. The 0 fuel case is
unreachable from the call site, where retries is at least 1. -/
def registryWait (ping : Nat → Bool) (delay : Nat) : Nat → Nat → Nat × List StEv
  | _, 0 => (0, [])
  | i, r + 1 =>
    if ping i then (r + 1, [StEv.registryPing])
    else if r = 0 then (0, [StEv.registryPing])
    else
      let rest := registryWait ping delay (i + 1) r
      (rest.1, StEv.registryPing :: StEv.sleepDelay delay :: rest.2)

/-- Common tail of devsdk_service_start once the configuration is settled
and a registry is present: the three query_service calls, the optional
remote-logging ping (whose failure aborts start), the startup log lines
and the call to startConfigured. -/
def afterConfigRegistry (m : StartMocks) (t : List StEv) : StartOut :=
  let t := t ++ [StEv.queryService "edgex-core-metadata",
    .queryService "edgex-core-data", .queryService "edgex-support-logging"]
  if m.useremote && m.pingLoggingErr ≠ 0 then
    ({ err := m.pingLoggingErr, trace := t ++ [.pingLogging] })
  else
    let t := t ++ (if m.useremote then [StEv.pingLogging] else []) ++
      [StEv.logInfo, .logInfo]
    let sc := startConfigured m.sc
    { err := sc.err
      trace := t ++ sc.trace.map StEv.bringup ++
        (if sc.err = 0 then [StEv.logInfo, .logInfo] else []) }

/-- devsdk_service_start when a registry handle was obtained: wait for the
registry, fetch or upload the configuration, then continue. configLoaded
records whether the TOML was already loaded while resolving the registry
URL. -/
def startWithRegistry (m : StartMocks) (configLoaded : Bool) (t : List StEv) :
    StartOut :=
  let w := registryWait m.regPing (effDelay m.envRetryWait) 0
    (effRetries m.envRetryCount)
  let t := t ++ w.2
  if w.1 = 0 then
    { err := EDGEX_REMOTE_SERVER_DOWN, trace := t ++ [.logError] }
  else
    let t := t ++ [StEv.logInfo, .registryGetConfig]
    if m.getConfigOk then
      let t := t ++ [StEv.populateConfig]
      if m.populateConfigErr ≠ 0 then
        { err := m.populateConfigErr, trace := t }
      else
        afterConfigRegistry m t
    else
      let t := t ++ [StEv.logInfo, .logInfo]
      if !configLoaded && m.loadConfigErr ≠ 0 then
        { err := m.loadConfigErr, trace := t ++ [.loadConfig] }
      else
        let t := t ++ (if configLoaded then [] else [StEv.loadConfig]) ++
          [StEv.parseToml, .populateConfig, .logInfo, .overrideConfig,
            .registryPutConfig]
        if m.putConfigErr ≠ 0 then
          { err := m.putConfigErr, trace := t ++ [.logError] }
        else
          afterConfigRegistry m t

/-- devsdk_service_start when no registry is configured: load and parse
the TOML, populate the configuration (its error is not checked here),
parse the Clients table, optionally ping remote logging, then bring up. -/
def startNoRegistry (m : StartMocks) : StartOut :=
  if m.loadConfigErr ≠ 0 then
    { err := m.loadConfigErr, trace := [.loadConfig] }
  else
    let t := [StEv.loadConfig, .parseToml, .populateConfig, .parseTomlClients]
    if m.useremote && m.pingLoggingErr ≠ 0 then
      { err := m.pingLoggingErr, trace := t ++ [.pingLogging] }
    else
      let t := t ++ (if m.useremote then [StEv.pingLogging] else []) ++
        [StEv.logInfo, .logInfo]
      let sc := startConfigured m.sc
      { err := sc.err
        trace := t ++ sc.trace.map StEv.bringup ++
          (if sc.err = 0 then [StEv.logInfo, .logInfo] else []) }

/-- devsdk_service_start: resolve the registry URL (possibly from the
TOML when the configured URL is the empty string), obtain the registry
handle, and dispatch to the registry or file path. -/
def devsdk_service_start (m : StartMocks) : StartOut :=
  match m.regURL with
  | none => startNoRegistry m
  | some u =>
    if u = "" then
      if m.loadConfigErr ≠ 0 then
        { err := m.loadConfigErr, trace := [.loadConfig] }
      else
        match m.tomlRegURL with
        | none =>
          { err := EDGEX_INVALID_ARG, trace := [.loadConfig, .getRegURL, .logError] }
        | some _ =>
          if m.registryGetOk then
            startWithRegistry m true [.loadConfig, .getRegURL, .registryGet]
          else
            { err := EDGEX_INVALID_ARG
              trace := [.loadConfig, .getRegURL, .registryGet, .logError] }
    else
      if m.registryGetOk then
        startWithRegistry m false [.registryGet]
      else
        { err := EDGEX_INVALID_ARG, trace := [.registryGet, .logError] }

/-! ## devsdk_post_readings -/

/-- Observable actions of devsdk_post_readings. -/
inductive PostEv where
  | devmapLookup (devname : String)
  | findCommand (resname : String)
  | deviceRelease
  | processEvent
  | enqueueWork
  | logError
  deriving Repr, DecidableEq

/-- Mock outcomes for devsdk_post_readings: whether the device map lookup
returns a device, whether the profile resolves the named resource to a
command, and whether the data pipeline produces a cooked event. -/
structure PostMocks where
  devname : String
  resname : String
  deviceFound : Bool
  commandFound : Bool
  eventProduced : Bool

/-- devsdk_post_readings: look the device up by name (logging and
returning when absent), resolve the command on its profile, release the
device handle, and when a command and a cooked event exist submit one
work item to the pool. The C function has no error out-parameter, so the
model returns only the trace. -/
def devsdk_post_readings (m : PostMocks) : List PostEv :=
  let t := [PostEv.devmapLookup m.devname]
  if !m.deviceFound then t ++ [.logError]
  else
    let t := t ++ [PostEv.findCommand m.resname, .deviceRelease]
    if m.commandFound then
      let t := t ++ [PostEv.processEvent]
      if m.eventProduced then t ++ [.enqueueWork] else t
    else
      t ++ [.logError]

/-! ## devsdk_service_stop -/

/-- Observable actions of devsdk_service_stop. -/
inductive StopEv where
  | logDebug
  | stopConfigSet
  | schedulerStop
  | restServerDestroy
  | driverStop (force : Bool)
  | devmapClear
  | registryDeregister
  | logError
  | schedulerFree
  | threadpoolWait
  | logInfo
  deriving Repr, DecidableEq

/-- Mock state for devsdk_service_stop: which optional members are
non-NULL and the outcome of registry deregistration. -/
structure StopMocks where
  force : Bool
  stopconfigPresent : Bool
  schedulerPresent : Bool
  daemonPresent : Bool
  registryPresent : Bool
  deregisterErr : Nat

/-- devsdk_service_stop: sets err to OK up front, runs every shutdown
step unconditionally (guarded only by member presence), logs a
deregistration failure without clearing the error out-parameter, and
finishes with scheduler free, thread pool drain and the final log. -/
def devsdk_service_stop (m : StopMocks) : Nat × List StopEv :=
  let t := [StopEv.logDebug] ++
    (if m.stopconfigPresent then [StopEv.stopConfigSet] else []) ++
    (if m.schedulerPresent then [StopEv.schedulerStop] else []) ++
    (if m.daemonPresent then [StopEv.restServerDestroy] else []) ++
    [StopEv.driverStop m.force, .devmapClear]
  let (e, t) :=
    if m.registryPresent then
      if m.deregisterErr ≠ 0 then
        (m.deregisterErr, t ++ [StopEv.registryDeregister, .logError])
      else
        (EDGEX_OK, t ++ [StopEv.registryDeregister])
    else
      (EDGEX_OK, t)
  (e, t ++ [StopEv.schedulerFree, .threadpoolWait, .logInfo])

/-! ## Lemmas on name/value pair lists -/

lemma value_eq_findByName (l : List devsdk_nvpairs) (n : String) :
    devsdk_nvpairs_value l (some n) = (findByName l n).map devsdk_nvpairs.value := by
  induction l with
  | nil => rfl
  | cons p rest ih =>
    simp only [devsdk_nvpairs_value, findByName]
    split <;> simp [ih]

lemma findByName_mem {l : List devsdk_nvpairs} {n : String} {q : devsdk_nvpairs}
    (h : findByName l n = some q) : q ∈ l ∧ q.name = n := by
  induction l with
  | nil => cases h
  | cons p rest ih =>
    simp only [findByName] at h
    split at h
    · cases h
      exact ⟨List.mem_cons_self _ _, by assumption⟩
    · obtain ⟨hm, hn⟩ := ih h
      exact ⟨List.mem_cons_of_mem _ hm, hn⟩

lemma findByName_eq_none_iff {l : List devsdk_nvpairs} {n : String} :
    findByName l n = none ↔ n ∉ l.map devsdk_nvpairs.name := by
  induction l with
  | nil => simp [findByName]
  | cons p rest ih =>
    simp only [findByName, List.map_cons, List.mem_cons]
    split
    · simp_all
    · simp only [ih]
      constructor
      · intro h hc
        rcases hc with hc | hc
        · exact (by assumption : ¬p.name = n) hc.symm
        · exact h hc
      · intro h hc
        exact h (Or.inr hc)

lemma findByName_of_mem {l : List devsdk_nvpairs}
    (hn : (l.map devsdk_nvpairs.name).Nodup) {p : devsdk_nvpairs} (hp : p ∈ l) :
    findByName l p.name = some p := by
  induction l with
  | nil => cases hp
  | cons q rest ih =>
    simp only [List.map_cons, List.nodup_cons] at hn
    rcases List.mem_cons.mp hp with rfl | hp2
    · simp [findByName]
    · have hq : ¬q.name = p.name := by
        intro he
        exact hn.1 (he ▸ List.mem_map_of_mem _ hp2)
      simp only [findByName, if_neg hq]
      exact ih hn.2 hp2

lemma value_eq_some_iff {l : List devsdk_nvpairs} {n : String} {v : String} :
    devsdk_nvpairs_value l (some n) = some v ↔
      ∃ q, findByName l n = some q ∧ q.value = v := by
  rw [value_eq_findByName]
  cases h : findByName l n <;> simp [h]

lemma value_eq_none_iff {l : List devsdk_nvpairs} {n : String} :
    devsdk_nvpairs_value l (some n) = none ↔ n ∉ l.map devsdk_nvpairs.name := by
  rw [value_eq_findByName, ← findByName_eq_none_iff]
  cases h : findByName l n <;> simp [h]

lemma devsdk_nvpairs_dup_eq (l : List devsdk_nvpairs) :
    devsdk_nvpairs_dup l = l := by
  induction l with
  | nil => rfl
  | cons p rest ih => simp [devsdk_nvpairs_dup, ih]

lemma equal_eq_true_iff (l1 l2 : List devsdk_nvpairs) :
    devsdk_nvpairs_equal l1 l2 = true ↔
      (l1.length = l2.length ∧
        ∀ p ∈ l1, ∃ q, findByName l2 p.name = some q ∧ p.value = q.value) := by
  unfold devsdk_nvpairs_equal
  simp only [Bool.and_eq_true, List.all_eq_true, decide_eq_true_eq]
  constructor
  · rintro ⟨hlen, hall⟩
    refine ⟨hlen, fun p hp => ?_⟩
    have h := hall p hp
    cases hf : findByName l2 p.name with
    | none => rw [hf] at h; cases h
    | some q =>
      rw [hf] at h
      exact ⟨q, rfl, by simpa using h⟩
  · rintro ⟨hlen, hall⟩
    refine ⟨hlen, fun p hp => ?_⟩
    obtain ⟨q, hq, hv⟩ := hall p hp
    rw [hq]
    simpa using hv

lemma equal_iff_lookup_eq {l1 l2 : List devsdk_nvpairs}
    (h1 : (l1.map devsdk_nvpairs.name).Nodup)
    (h2 : (l2.map devsdk_nvpairs.name).Nodup) :
    devsdk_nvpairs_equal l1 l2 = true ↔
      ∀ n, devsdk_nvpairs_value l1 (some n) = devsdk_nvpairs_value l2 (some n) := by
  rw [equal_eq_true_iff]
  constructor
  · rintro ⟨hlen, hall⟩ n
    rw [value_eq_findByName, value_eq_findByName]
    cases hf : findByName l1 n with
    | some p =>
      obtain ⟨hpmem, hpname⟩ := findByName_mem hf
      obtain ⟨q, hq, hv⟩ := hall p hpmem
      rw [hpname] at hq
      rw [hq]
      simp [hv]
    | none =>
      have hn1 : n ∉ l1.map devsdk_nvpairs.name := findByName_eq_none_iff.mp hf
      have hsub : l1.map devsdk_nvpairs.name ⊆ l2.map devsdk_nvpairs.name := by
        intro x hx
        obtain ⟨p, hp, rfl⟩ := List.mem_map.mp hx
        obtain ⟨q, hq, -⟩ := hall p hp
        obtain ⟨hqmem, hqname⟩ := findByName_mem hq
        exact hqname ▸ List.mem_map_of_mem _ hqmem
      have hperm : (l1.map devsdk_nvpairs.name).Perm (l2.map devsdk_nvpairs.name) :=
        (h1.subperm hsub).perm_of_length_le (by simp [hlen])
      have hn2 : n ∉ l2.map devsdk_nvpairs.name := fun hm => hn1 (hperm.mem_iff.mpr hm)
      rw [findByName_eq_none_iff.mpr hn2]
  · intro hlook
    have hmemiff : ∀ x, x ∈ l1.map devsdk_nvpairs.name ↔ x ∈ l2.map devsdk_nvpairs.name := by
      intro x
      have hx := hlook x
      constructor
      · intro h1x
        by_contra hc
        rw [value_eq_none_iff.mpr hc] at hx
        exact (value_eq_none_iff.mp hx) h1x
      · intro h2x
        by_contra hc
        rw [value_eq_none_iff.mpr hc] at hx
        exact (value_eq_none_iff.mp hx.symm) h2x
    have hperm := (List.perm_ext_iff_of_nodup h1 h2).mpr hmemiff
    have hlen : l1.length = l2.length := by
      have := hperm.length_eq
      simpa using this
    refine ⟨hlen, fun p hp => ?_⟩
    have hv1 : devsdk_nvpairs_value l1 (some p.name) = some p.value := by
      rw [value_eq_findByName, findByName_of_mem h1 hp]
      rfl
    have hv2 : devsdk_nvpairs_value l2 (some p.name) = some p.value :=
      (hlook p.name) ▸ hv1
    obtain ⟨q, hq, hqv⟩ := value_eq_some_iff.mp hv2
    exact ⟨q, hq, hqv.symm⟩

lemma value_some_of_mem {l : List devsdk_nvpairs}
    (hn : (l.map devsdk_nvpairs.name).Nodup) {p : devsdk_nvpairs} (hp : p ∈ l) :
    devsdk_nvpairs_value l (some p.name) = some p.value := by
  rw [value_eq_findByName, findByName_of_mem hn hp]
  rfl

/-! ## Claims C7, C8, C9, C10 -/

/-- C7 counterexample: for the list L = [(a,1), (a,2)], which repeats the
name a with two different values, equal(dup(L), L) is false, refuting the
claim that it holds for every list. -/
theorem claim_C7_counterexample :
    devsdk_nvpairs_equal
      (devsdk_nvpairs_dup [⟨"a", "1"⟩, ⟨"a", "2"⟩])
      [⟨"a", "1"⟩, ⟨"a", "2"⟩] = false := by
  decide

/-- C7 (amended): restricted to pair lists whose names are pairwise
distinct, equal(dup(L), L) holds; equal is order-insensitive in that a
permutation of a distinct-name list compares equal to it; and for two
distinct-name lists, equal is true exactly when every name lookup agrees
on both lists (same key set and equal value per key), hence false
whenever the key sets differ or any corresponding value differs. -/
theorem claim_C7_amended :
    (∀ L : List devsdk_nvpairs, (L.map devsdk_nvpairs.name).Nodup →
      devsdk_nvpairs_equal (devsdk_nvpairs_dup L) L = true) ∧
    (∀ l1 l2 : List devsdk_nvpairs, (l1.map devsdk_nvpairs.name).Nodup →
      l1.Perm l2 → devsdk_nvpairs_equal l1 l2 = true) ∧
    (∀ l1 l2 : List devsdk_nvpairs,
      (l1.map devsdk_nvpairs.name).Nodup → (l2.map devsdk_nvpairs.name).Nodup →
      (devsdk_nvpairs_equal l1 l2 = true ↔
        ∀ n, devsdk_nvpairs_value l1 (some n) = devsdk_nvpairs_value l2 (some n))) := by
  refine ⟨?_, ?_, fun l1 l2 h1 h2 => equal_iff_lookup_eq h1 h2⟩
  · intro L hL
    rw [devsdk_nvpairs_dup_eq]
    exact (equal_iff_lookup_eq hL hL).mpr (fun _ => rfl)
  · intro l1 l2 h1 hperm
    have h2 : (l2.map devsdk_nvpairs.name).Nodup :=
      ((hperm.map devsdk_nvpairs.name).nodup_iff).mp h1
    refine (equal_iff_lookup_eq h1 h2).mpr (fun n => ?_)
    cases hv : devsdk_nvpairs_value l1 (some n) with
    | some v =>
      obtain ⟨q, hq, hqv⟩ := value_eq_some_iff.mp hv
      obtain ⟨hqmem, hqname⟩ := findByName_mem hq
      have : devsdk_nvpairs_value l2 (some q.name) = some q.value :=
        value_some_of_mem h2 (hperm.mem_iff.mp hqmem)
      rw [hqname, hqv] at this
      exact this.symm
    | none =>
      have hn := value_eq_none_iff.mp hv
      have : n ∉ l2.map devsdk_nvpairs.name :=
        fun hm => hn ((hperm.map devsdk_nvpairs.name).mem_iff.mpr hm)
      exact (value_eq_none_iff.mpr this).symm

/-- C7 witness: the amended duplication law applied to a concrete
distinct-name list. -/
theorem claim_C7_witness :
    devsdk_nvpairs_equal
      (devsdk_nvpairs_dup [⟨"a", "1"⟩, ⟨"b", "2"⟩])
      [⟨"a", "1"⟩, ⟨"b", "2"⟩] = true :=
  claim_C7_amended.1 [⟨"a", "1"⟩, ⟨"b", "2"⟩] (by decide)

/-- Generic characterisation of the typed accessor body: success exactly
when a value is present, non-empty, converted without range error and
consumed to the terminator; the out-parameter keeps its old contents on
failure. -/
lemma typed_value_spec {α : Type} (conv : String → CStrConv α)
    (nvp : List devsdk_nvpairs) (name : Option String) (val : α) :
    ((devsdk_nvpairs_typed_value conv nvp name val).1 = true ↔
      ∃ v, devsdk_nvpairs_value nvp name = some v ∧ v ≠ "" ∧
        (conv v).rangeError = false ∧ (conv v).consumed = v.length) ∧
    ((devsdk_nvpairs_typed_value conv nvp name val).1 = false →
      (devsdk_nvpairs_typed_value conv nvp name val).2 = val) := by
  unfold devsdk_nvpairs_typed_value
  cases h : devsdk_nvpairs_value nvp name with
  | none => simp
  | some v =>
    by_cases hv : v = ""
    · subst hv
      simp
    · dsimp only
      rw [if_pos (show v ≠ "" from hv)]
      by_cases hc : (conv v).rangeError = false ∧ (conv v).consumed = v.length
      · rw [if_pos hc]
        refine ⟨⟨fun _ => ⟨v, rfl, hv, hc.1, hc.2⟩, fun _ => rfl⟩, ?_⟩
        intro hfalse
        cases hfalse
      · rw [if_neg hc]
        refine ⟨⟨?_, ?_⟩, fun _ => rfl⟩
        · intro hfalse
          cases hfalse
        · rintro ⟨w, hw, hwne, hr, hl⟩
          cases hw
          exact absurd ⟨hr, hl⟩ hc

/-- C8: each typed accessor (long, unsigned long, float) succeeds exactly
when the looked-up value exists, is non-empty, and the corresponding libc
conversion consumes the whole string with no range error; whenever the
accessor returns false the out-parameter is unchanged. The statement is
universally quantified over the behaviour of the external conversion. -/
theorem claim_C8 :
    (∀ (strtol : String → CStrConv Int) (nvp : List devsdk_nvpairs)
        (name : Option String) (val : Int),
      ((devsdk_nvpairs_long_value strtol nvp name val).1 = true ↔
        ∃ v, devsdk_nvpairs_value nvp name = some v ∧ v ≠ "" ∧
          (strtol v).rangeError = false ∧ (strtol v).consumed = v.length) ∧
      ((devsdk_nvpairs_long_value strtol nvp name val).1 = false →
        (devsdk_nvpairs_long_value strtol nvp name val).2 = val)) ∧
    (∀ (strtoul : String → CStrConv Nat) (nvp : List devsdk_nvpairs)
        (name : Option String) (val : Nat),
      ((devsdk_nvpairs_ulong_value strtoul nvp name val).1 = true ↔
        ∃ v, devsdk_nvpairs_value nvp name = some v ∧ v ≠ "" ∧
          (strtoul v).rangeError = false ∧ (strtoul v).consumed = v.length) ∧
      ((devsdk_nvpairs_ulong_value strtoul nvp name val).1 = false →
        (devsdk_nvpairs_ulong_value strtoul nvp name val).2 = val)) ∧
    (∀ (F : Type) (strtof : String → CStrConv F) (nvp : List devsdk_nvpairs)
        (name : Option String) (val : F),
      ((devsdk_nvpairs_float_value strtof nvp name val).1 = true ↔
        ∃ v, devsdk_nvpairs_value nvp name = some v ∧ v ≠ "" ∧
          (strtof v).rangeError = false ∧ (strtof v).consumed = v.length) ∧
      ((devsdk_nvpairs_float_value strtof nvp name val).1 = false →
        (devsdk_nvpairs_float_value strtof nvp name val).2 = val)) :=
  ⟨fun conv nvp name val => typed_value_spec conv nvp name val,
   fun conv nvp name val => typed_value_spec conv nvp name val,
   fun _ conv nvp name val => typed_value_spec conv nvp name val⟩

/-- A concrete conversion used to witness C8: consumes everything,
returning 7 with no range error. -/
def convSeven : String → CStrConv Int :=
  fun s => { value := 7, consumed := s.length, rangeError := false }

/-- C8 witness: the accessor succeeds on a concrete list and conversion. -/
theorem claim_C8_witness :
    (devsdk_nvpairs_long_value convSeven [⟨"a", "9"⟩] (some "a") 0).1 = true :=
  (claim_C8.1 convSeven [⟨"a", "9"⟩] (some "a") 0).1.mpr
    ⟨"9", rfl, by decide, rfl, rfl⟩

lemma foldl_cons_eq_reverse_map {α β : Type} (f : α → β) :
    ∀ (e : List α) (acc : List β),
      e.foldl (fun r p => f p :: r) acc = (e.map f).reverse ++ acc := by
  intro e
  induction e with
  | nil => intro acc; rfl
  | cons p rest ih =>
    intro acc
    simp [List.foldl_cons, ih, List.append_assoc]

lemma protocols_dup_eq_reverse (e : List devsdk_protocols) :
    devsdk_protocols_dup e = e.reverse := by
  unfold devsdk_protocols_dup
  rw [foldl_cons_eq_reverse_map]
  simp [devsdk_nvpairs_dup_eq]

/-- C9 counterexample: on the two-element list [(p1, []), (p2, [])] the
copy made by devsdk_protocols_dup has p2 first, so the 0-th element of
the copy does not carry the same protocol name as the 0-th element of
the original, refuting order preservation. -/
theorem claim_C9_counterexample :
    ((devsdk_protocols_dup [⟨"p1", []⟩, ⟨"p2", []⟩]).head?).map devsdk_protocols.name ≠
      (([⟨"p1", []⟩, ⟨"p2", []⟩] : List devsdk_protocols).head?).map devsdk_protocols.name := by
  decide

/-- C9 (amended): devsdk_protocols_dup is a structural copy that REVERSES
the order: the copy equals the reversal of the original (each node keeps
its protocol name and an order-preserving structural copy of its
properties), so it has the same length, and its i-th element is the
(n-1-i)-th element of the original. -/
theorem claim_C9_amended (e : List devsdk_protocols) :
    devsdk_protocols_dup e = e.reverse ∧
    (devsdk_protocols_dup e).length = e.length ∧
    ∀ i : Nat, i < e.length →
      (devsdk_protocols_dup e)[i]? = e[e.length - 1 - i]? := by
  refine ⟨protocols_dup_eq_reverse e, ?_, ?_⟩
  · rw [protocols_dup_eq_reverse]
    exact List.length_reverse e
  · intro i hi
    rw [protocols_dup_eq_reverse]
    exact List.getElem?_reverse hi

/-- C9 witness: the amended statement evaluated on a concrete list. -/
theorem claim_C9_witness :
    devsdk_protocols_dup [⟨"p1", []⟩, ⟨"p2", []⟩] =
      ([⟨"p1", []⟩, ⟨"p2", []⟩] : List devsdk_protocols).reverse ∧
    (devsdk_protocols_dup [⟨"p1", []⟩, ⟨"p2", []⟩]).length =
      ([⟨"p1", []⟩, ⟨"p2", []⟩] : List devsdk_protocols).length :=
  ⟨(claim_C9_amended [⟨"p1", []⟩, ⟨"p2", []⟩]).1,
   (claim_C9_amended [⟨"p1", []⟩, ⟨"p2", []⟩]).2.1⟩

/-- C10: a list built by devsdk_nvpairs_new carries the new pair at the
head, so a lookup for that name returns the newest value even when older
pairs share the name; the lookup returns NULL on a NULL name argument
and on a name no pair carries. -/
theorem claim_C10 :
    (∀ (n v : String) (l : List devsdk_nvpairs) (q : String),
      devsdk_nvpairs_value (devsdk_nvpairs_new n v l) (some q) =
        if n = q then some v else devsdk_nvpairs_value l (some q)) ∧
    (∀ l : List devsdk_nvpairs, devsdk_nvpairs_value l none = none) ∧
    (∀ (l : List devsdk_nvpairs) (q : String),
      (∀ p ∈ l, p.name ≠ q) → devsdk_nvpairs_value l (some q) = none) := by
  refine ⟨?_, ?_, ?_⟩
  · intro n v l q
    simp [devsdk_nvpairs_new, devsdk_nvpairs_value]
  · intro l
    cases l <;> rfl
  · intro l q h
    refine value_eq_none_iff.mpr (fun hm => ?_)
    obtain ⟨p, hp, hpn⟩ := List.mem_map.mp hm
    exact h p hp hpn

/-- C10 witness: the newest pair named a wins over the older one, and a
NULL or absent name gives NULL, on a concrete list. -/
theorem claim_C10_witness :
    devsdk_nvpairs_value
        (devsdk_nvpairs_new "a" "new" [⟨"a", "old"⟩]) (some "a") = some "new" ∧
    devsdk_nvpairs_value [(⟨"a", "old"⟩ : devsdk_nvpairs)] none = none ∧
    devsdk_nvpairs_value [(⟨"a", "old"⟩ : devsdk_nvpairs)] (some "z") = none := by
  refine ⟨?_, claim_C10.2.1 _, claim_C10.2.2 _ "z" (by decide)⟩
  rw [claim_C10.1 "a" "new" [⟨"a", "old"⟩] "a"]
  simp

/-! ## Trace predicates and ordering -/

def isCallbackReg : ScEv → Bool
  | .regCallbackHandler => true
  | _ => false

def isProcessConfigured : ScEv → Bool
  | .processConfiguredDevices => true
  | _ => false

def isDriverInit : ScEv → Bool
  | .driverInit => true
  | _ => false

def isRemainingReg : ScEv → Bool
  | .regDeviceHandler => true
  | .regDiscoveryHandler => true
  | .regMetricsHandler => true
  | .regConfigHandler => true
  | .regVersionHandler => true
  | .regPingHandler => true
  | _ => false

/-- Mutations of the DeviceService/addressable records in metadata. -/
def isMetaMutation : ScEv → Bool
  | .createAddressable _ => true
  | .createDeviceservice _ => true
  | .updateAddressable _ => true
  | _ => false

/-- The six handler registrations performed after driver init. -/
def remainingRegs : List ScEv :=
  [.regDeviceHandler, .regDiscoveryHandler, .regMetricsHandler,
    .regConfigHandler, .regVersionHandler, .regPingHandler]

/-- precedesAllB p q t holds when every q-event of t is strictly preceded
by some p-event: scanning left to right, meeting a q-event before any
p-event refutes it, and the first p-event settles it. -/
def precedesAllB {ε : Type} (p q : ε → Bool) : List ε → Bool
  | [] => true
  | e :: rest => !q e && (p e || precedesAllB p q rest)

lemma precedesAllB_append {ε : Type} (p q : ε → Bool) (t s : List ε)
    (h : ∀ e ∈ t, p e = false ∧ q e = false) :
    precedesAllB p q (t ++ s) = precedesAllB p q s := by
  induction t with
  | nil => rfl
  | cons e rest ih =>
    have he := h e (List.mem_cons_self e rest)
    simp only [List.cons_append, precedesAllB, he.1, he.2]
    simp only [Bool.not_false, Bool.false_or, Bool.true_and]
    exact ih (fun x hx => h x (List.mem_cons_of_mem _ hx))

lemma precedesAllB_of_committed {ε : Type} (p q : ε → Bool) (t1 t2 s : List ε)
    (x : ε) (hp : p x = true) (hq : q x = false)
    (h1 : ∀ e ∈ t1, p e = false ∧ q e = false) :
    precedesAllB p q ((t1 ++ x :: t2) ++ s) = true := by
  rw [List.append_assoc, precedesAllB_append p q t1 _ h1]
  simp [precedesAllB, hp, hq]

/-! ## Bring-up ordering (claim C1) -/

set_option maxHeartbeats 1600000 in
lemma scTail_ok (m : SCMocks) :
    (scTail m).1 = 0 →
      ScEv.regCallbackHandler ∈ (scTail m).2 ∧
      ScEv.driverInit ∈ (scTail m).2 ∧
      (∀ e ∈ remainingRegs, e ∈ (scTail m).2) ∧
      precedesAllB isCallbackReg isProcessConfigured (scTail m).2 = true ∧
      precedesAllB isDriverInit isRemainingReg (scTail m).2 = true := by
  unfold scTail
  dsimp only
  repeat' split
  all_goals intro h
  all_goals (try dsimp only at h ⊢)
  all_goals first
    | decide
    | simp_all [EDGEX_DRIVER_UNSTART, EDGEX_OK]

lemma scTail_noMutation (m : SCMocks) :
    ∀ e ∈ (scTail m).2, isMetaMutation e = false := by
  unfold scTail
  dsimp only
  repeat' split
  all_goals (try dsimp only)
  all_goals decide

/-- Lifts the scTail facts over a reconcile prefix that contains none of
the four kinds of event C1 talks about. -/
lemma scSuccessLift (m : SCMocks) (t : List ScEv)
    (hpre : ∀ e ∈ t, (isCallbackReg e = false ∧ isProcessConfigured e = false) ∧
        (isDriverInit e = false ∧ isRemainingReg e = false))
    (h : (scTail m).1 = 0) :
    ScEv.regCallbackHandler ∈ t ++ (scTail m).2 ∧
    ScEv.driverInit ∈ t ++ (scTail m).2 ∧
    (∀ e ∈ remainingRegs, e ∈ t ++ (scTail m).2) ∧
    precedesAllB isCallbackReg isProcessConfigured (t ++ (scTail m).2) = true ∧
    precedesAllB isDriverInit isRemainingReg (t ++ (scTail m).2) = true := by
  obtain ⟨h1, h2, h3, h4, h5⟩ := scTail_ok m h
  refine ⟨List.mem_append_right t h1, List.mem_append_right t h2,
    fun e he => List.mem_append_right t (h3 e he), ?_, ?_⟩
  · rw [precedesAllB_append _ _ t _ (fun e he => (hpre e he).1)]
    exact h4
  · rw [precedesAllB_append _ _ t _ (fun e he => (hpre e he).2)]
    exact h5

/-- C1: in every run of startConfigured that ends with error code 0, the
callback handler is registered, driver init is invoked, all six remaining
handlers are registered, every processing of configured devices is
strictly preceded by the callback handler registration, and every
remaining handler registration is strictly preceded by driver init. -/
theorem claim_C1 (m : SCMocks) (h : (startConfigured m).err = 0) :
    ScEv.regCallbackHandler ∈ (startConfigured m).trace ∧
    ScEv.driverInit ∈ (startConfigured m).trace ∧
    (∀ e ∈ remainingRegs, e ∈ (startConfigured m).trace) ∧
    precedesAllB isCallbackReg isProcessConfigured (startConfigured m).trace = true ∧
    precedesAllB isDriverInit isRemainingReg (startConfigured m).trace = true := by
  revert h
  unfold startConfigured
  dsimp only
  repeat' split
  all_goals intro h
  all_goals first
    | (simp_all; done)
    | (dsimp only at h ⊢
       exact scSuccessLift m _ (by
         simp [isCallbackReg, isProcessConfigured, isDriverInit, isRemainingReg]) h)

/-- A successful concrete bring-up used to witness C1: metadata holds no
DeviceService and no addressable, every collaborator succeeds, the driver
accepts init, and no registry is configured. -/
def scM1 : SCMocks :=
  { svcName := "svc"
    configServiceHost := some "host"
    unameNodename := "node"
    servicePort := 49990
    labels := []
    startupmsg := false
    millis := 0
    pingDataErr := 0
    pingMetadataErr := 0
    getDSErr := 0
    getDSResult := none
    getAddrErr := 0
    getAddrResult := none
    createAddrErr := 0
    createDSErr := 0
    updateAddrErr := 0
    profilesUploadErr := 0
    getDevicesErr := 0
    restCreateErr := 0
    configPresent := true
    processConfiguredErr := 0
    driverInitOk := true
    getWatchersErr := 0
    watchersPresent := false
    registryPresent := false
    registryRegisterErr := 0 }

/-- C1 witness: the ordering facts on the concrete successful run. -/
theorem claim_C1_witness :
    ScEv.regCallbackHandler ∈ (startConfigured scM1).trace ∧
    ScEv.driverInit ∈ (startConfigured scM1).trace ∧
    (∀ e ∈ remainingRegs, e ∈ (startConfigured scM1).trace) ∧
    precedesAllB isCallbackReg isProcessConfigured (startConfigured scM1).trace = true ∧
    precedesAllB isDriverInit isRemainingReg (startConfigured scM1).trace = true :=
  claim_C1 scM1 (by decide)

/-! ## Metadata reconcile (claim C2) -/

lemma sc_update_branch (m : SCMocks) (d : DeviceService)
    (h1 : m.pingDataErr = 0) (h2 : m.pingMetadataErr = 0) (h3 : m.getDSErr = 0)
    (hd : m.getDSResult = some d)
    (hmis : d.addressable.port ≠ m.servicePort ∨
      d.addressable.address ≠ resolvedHost m) :
    ScEv.updateAddressable
        { d.addressable with port := m.servicePort, address := resolvedHost m } ∈
      (startConfigured m).trace ∧
    ∀ x : DeviceService, ScEv.createDeviceservice x ∉ (startConfigured m).trace := by
  unfold startConfigured
  dsimp only
  rw [if_neg (by simp [h1]), if_neg (by simp [h2]), if_neg (by simp [h3]), hd]
  dsimp only
  rw [if_pos hmis]
  by_cases hupd : m.updateAddrErr = 0
  · rw [if_neg (by simp [hupd])]
    dsimp only
    refine ⟨List.mem_append_left _ (by simp), ?_⟩
    intro x hx
    rcases List.mem_append.mp hx with hx | hx
    · simp at hx
    · have := scTail_noMutation m _ hx
      simp [isMetaMutation] at this
  · rw [if_pos hupd]
    dsimp only
    refine ⟨by simp, ?_⟩
    intro x hx
    simp at hx

lemma sc_match_branch (m : SCMocks) (d : DeviceService)
    (h1 : m.pingDataErr = 0) (h2 : m.pingMetadataErr = 0) (h3 : m.getDSErr = 0)
    (hd : m.getDSResult = some d)
    (hp : d.addressable.port = m.servicePort)
    (ha : d.addressable.address = resolvedHost m) :
    ∀ e ∈ (startConfigured m).trace, isMetaMutation e = false := by
  unfold startConfigured
  dsimp only
  rw [if_neg (by simp [h1]), if_neg (by simp [h2]), if_neg (by simp [h3]), hd]
  dsimp only
  rw [if_neg (by simp [hp, ha])]
  intro e he
  rcases List.mem_append.mp he with he | he
  · simp only [List.mem_cons, List.not_mem_nil, or_false] at he
    rcases he with rfl | rfl | rfl <;> rfl
  · exact scTail_noMutation m e he

lemma sc_metaAddr (m : SCMocks) (herr : (startConfigured m).err = 0) :
    (∀ d : DeviceService, m.getDSResult = some d →
      ∃ a, (startConfigured m).metaAddr = some a ∧
        a.port = m.servicePort ∧ a.address = resolvedHost m) ∧
    (m.getDSResult = none → m.getAddrResult = none →
      ∃ a, (startConfigured m).metaAddr = some a ∧
        a.port = m.servicePort ∧ a.address = resolvedHost m) ∧
    (∀ a0 : Addressable, m.getDSResult = none → m.getAddrResult = some a0 →
      (startConfigured m).metaAddr = some a0) := by
  revert herr
  unfold startConfigured
  dsimp only
  repeat' split
  all_goals intro herr
  all_goals (try dsimp only at herr ⊢)
  all_goals simp_all [mkCallbackAddressable]

/-- C2 counterexample setup: metadata has no DeviceService but does hold
a stale addressable with the wrong port and host. -/
def staleAddr : Addressable :=
  { origin := 0
    name := "svc"
    method := "POST"
    protocol := "HTTP"
    address := "otherhost"
    port := 48080
    path := "/api/v1/callback" }

def scM2 : SCMocks :=
  { scM1 with getAddrResult := some staleAddr }

/-- C2 counterexample: with no DeviceService record but a pre-existing
addressable at port 48080 and host otherhost, bring-up succeeds while
the configured port is 49990 and the resolved host is host: the stale
addressable is attached unchanged, so after a successful bring-up the
recorded addressable does NOT carry the configured port. -/
theorem claim_C2_counterexample :
    (startConfigured scM2).err = 0 ∧
    (startConfigured scM2).metaAddr = some staleAddr ∧
    staleAddr.port ≠ scM2.servicePort ∧
    staleAddr.address ≠ resolvedHost scM2 := by
  refine ⟨by decide, by decide, by decide, by decide⟩

/-- C2 (amended): when get_deviceservice returns a record whose
addressable differs in port or resolved host, update_addressable is
called with the configured port and resolved host and
create_deviceservice is never called; when it matches in both, no
metadata mutation happens at all; and after a successful bring-up the
recorded addressable carries the configured port and resolved host in
the cases where a DeviceService record pre-existed or where neither a
DeviceService nor an addressable pre-existed, while a pre-existing
orphan addressable is attached unchanged (its port and host may
differ from the configuration). -/
theorem claim_C2_amended (m : SCMocks) :
    (∀ d : DeviceService, m.pingDataErr = 0 → m.pingMetadataErr = 0 →
      m.getDSErr = 0 → m.getDSResult = some d →
      (d.addressable.port ≠ m.servicePort ∨
        d.addressable.address ≠ resolvedHost m) →
      ScEv.updateAddressable
          { d.addressable with port := m.servicePort, address := resolvedHost m } ∈
        (startConfigured m).trace ∧
      (∀ x : DeviceService, ScEv.createDeviceservice x ∉ (startConfigured m).trace)) ∧
    (∀ d : DeviceService, m.pingDataErr = 0 → m.pingMetadataErr = 0 →
      m.getDSErr = 0 → m.getDSResult = some d →
      d.addressable.port = m.servicePort → d.addressable.address = resolvedHost m →
      ∀ e ∈ (startConfigured m).trace, isMetaMutation e = false) ∧
    ((startConfigured m).err = 0 →
      (∀ d : DeviceService, m.getDSResult = some d →
        ∃ a, (startConfigured m).metaAddr = some a ∧
          a.port = m.servicePort ∧ a.address = resolvedHost m) ∧
      (m.getDSResult = none → m.getAddrResult = none →
        ∃ a, (startConfigured m).metaAddr = some a ∧
          a.port = m.servicePort ∧ a.address = resolvedHost m) ∧
      (∀ a0 : Addressable, m.getDSResult = none → m.getAddrResult = some a0 →
        (startConfigured m).metaAddr = some a0)) :=
  ⟨fun d h1 h2 h3 hd hmis => sc_update_branch m d h1 h2 h3 hd hmis,
   fun d h1 h2 h3 hd hp ha => sc_match_branch m d h1 h2 h3 hd hp ha,
   fun herr => sc_metaAddr m herr⟩

/-- C2 witness setup: an existing DeviceService whose addressable has a
stale port and host. -/
def dsExisting : DeviceService :=
  { name := "svc"
    addressable := staleAddr
    operatingState := .enabled
    adminState := .unlocked
    created := 0
    labels := [] }

def scM3 : SCMocks :=
  { scM1 with getDSResult := some dsExisting }

/-- C2 witness: on the concrete mismatching record, the update call with
the configured port and resolved host appears in the trace and no
create_deviceservice call does. -/
theorem claim_C2_witness :
    ScEv.updateAddressable
        { dsExisting.addressable with
            port := scM3.servicePort, address := resolvedHost scM3 } ∈
      (startConfigured scM3).trace ∧
    ∀ x : DeviceService, ScEv.createDeviceservice x ∉ (startConfigured scM3).trace :=
  (claim_C2_amended scM3).1 dsExisting rfl rfl rfl rfl (by decide)

/-! ## Registry wait and configuration upload (claims C3, C4) -/

def isRegPing : StEv → Bool
  | .registryPing => true
  | _ => false

def isSleep : StEv → Bool
  | .sleepDelay _ => true
  | _ => false

def isBringupEv : StEv → Bool
  | .bringup _ => true
  | _ => false

def isPutConfig : StEv → Bool
  | .registryPutConfig => true
  | _ => false

def isLoadConfigEv : StEv → Bool
  | .loadConfig => true
  | _ => false

def isPopulateConfigEv : StEv → Bool
  | .populateConfig => true
  | _ => false

def isOverrideConfigEv : StEv → Bool
  | .overrideConfig => true
  | _ => false

/-- The trace the registry wait loop leaves when every ping fails and the
initial retries value is r: r pings separated by r - 1 sleeps of d. -/
def pingFailTrace (d : Nat) : Nat → List StEv
  | 0 => []
  | r + 1 =>
    StEv.registryPing ::
      (if r = 0 then [] else StEv.sleepDelay d :: pingFailTrace d r)

lemma registryWait_allFail (ping : Nat → Bool) (hp : ∀ i, ping i = false)
    (d : Nat) : ∀ r i, registryWait ping d i (r + 1) = (0, pingFailTrace d (r + 1)) := by
  intro r
  induction r with
  | zero =>
    intro i
    simp [registryWait, hp i, pingFailTrace]
  | succ r ih =>
    intro i
    show (if ping i = true then (r + 1 + 1, [StEv.registryPing])
      else if r + 1 = 0 then (0, [StEv.registryPing])
      else ((registryWait ping d (i + 1) (r + 1)).1,
        StEv.registryPing :: StEv.sleepDelay d ::
          (registryWait ping d (i + 1) (r + 1)).2)) =
      (0, pingFailTrace d (r + 1 + 1))
    rw [hp i, ih (i + 1)]
    simp [pingFailTrace]

lemma registryWait_kinds (ping : Nat → Bool) (d : Nat) :
    ∀ r i, ∀ e ∈ (registryWait ping d i r).2, (isRegPing e || isSleep e) = true := by
  intro r
  induction r with
  | zero =>
    intro i e he
    simp [registryWait] at he
  | succ r ih =>
    intro i e he
    simp only [registryWait] at he
    split at he
    · simp only [List.mem_singleton] at he
      subst he
      rfl
    · split at he
      · simp only [List.mem_singleton] at he
        subst he
        rfl
      · simp only [List.mem_cons] at he
        rcases he with rfl | rfl | he
        · rfl
        · rfl
        · exact ih (i + 1) e he

lemma pingFailTrace_countPing (d : Nat) :
    ∀ r, (pingFailTrace d r).countP isRegPing = r := by
  intro r
  induction r with
  | zero => rfl
  | succ r ih =>
    by_cases hr : r = 0
    · subst hr
      rfl
    · simp only [pingFailTrace, if_neg hr, List.countP_cons]
      simp [isRegPing, isSleep, ih] <;> omega

lemma pingFailTrace_countSleep (d : Nat) :
    ∀ r, (pingFailTrace d r).countP isSleep = r - 1 := by
  intro r
  induction r with
  | zero => rfl
  | succ r ih =>
    by_cases hr : r = 0
    · subst hr
      rfl
    · simp only [pingFailTrace, if_neg hr, List.countP_cons]
      simp [isRegPing, isSleep, ih] <;> omega

lemma pingFailTrace_sleeps (d : Nat) :
    ∀ r s, StEv.sleepDelay s ∈ pingFailTrace d r → s = d := by
  intro r
  induction r with
  | zero =>
    intro s hs
    simp [pingFailTrace] at hs
  | succ r ih =>
    intro s hs
    by_cases hr : r = 0
    · subst hr
      simp [pingFailTrace] at hs
    · simp only [pingFailTrace, if_neg hr, List.mem_cons] at hs
      rcases hs with hs | hs | hs
      · cases hs
      · cases hs
        rfl
      · exact ih s hs

lemma pingFailTrace_kinds (d : Nat) :
    ∀ r, ∀ e ∈ pingFailTrace d r, (isRegPing e || isSleep e) = true := by
  intro r
  induction r with
  | zero =>
    intro e he
    simp [pingFailTrace] at he
  | succ r ih =>
    intro e he
    by_cases hr : r = 0
    · subst hr
      simp [pingFailTrace] at he
      subst he
      rfl
    · simp only [pingFailTrace, if_neg hr, List.mem_cons] at he
      rcases he with rfl | rfl | he
      · rfl
      · rfl
      · exact ih e he

lemma pingOrSleep_not_special {e : StEv} (h : (isRegPing e || isSleep e) = true) :
    isBringupEv e = false ∧ isPutConfig e = false ∧ isLoadConfigEv e = false ∧
    isPopulateConfigEv e = false ∧ isOverrideConfigEv e = false := by
  cases e <;> simp_all [isRegPing, isSleep, isBringupEv, isPutConfig,
    isLoadConfigEv, isPopulateConfigEv, isOverrideConfigEv]

lemma effRetries_pos (env : Option Int) : 1 ≤ effRetries env := by
  cases env with
  | none => simp [effRetries]
  | some rc =>
    simp only [effRetries]
    split
    · omega
    · omega

lemma precedesAllB_cons_skip {ε : Type} (p q : ε → Bool) (x : ε) (l : List ε)
    (hp : p x = false) (hq : q x = false) :
    precedesAllB p q (x :: l) = precedesAllB p q l := by
  simp [precedesAllB, hp, hq]

lemma precedesAllB_cons_commit {ε : Type} (p q : ε → Bool) (x : ε) (l : List ε)
    (hp : p x = true) (hq : q x = false) :
    precedesAllB p q (x :: l) = true := by
  simp [precedesAllB, hp, hq]

/-- C3: with a registry URL configured, a registry handle obtained, and
every registry ping failing, devsdk_service_start pings exactly
effRetries times (5 unless overridden by a positive
edgex_registry_retry_count), sleeps effDelay seconds between attempts
(1 unless overridden by a positive edgex_registry_retry_wait), fails
with REMOTE_SERVER_DOWN and performs no bring-up action at all. -/
theorem claim_C3 (m : StartMocks) (u : String) (hu : m.regURL = some u)
    (hne : u ≠ "") (hreg : m.registryGetOk = true)
    (hping : ∀ i, m.regPing i = false) :
    (devsdk_service_start m).err = EDGEX_REMOTE_SERVER_DOWN ∧
    (devsdk_service_start m).trace.countP isRegPing = effRetries m.envRetryCount ∧
    (devsdk_service_start m).trace.countP isSleep = effRetries m.envRetryCount - 1 ∧
    (∀ s, StEv.sleepDelay s ∈ (devsdk_service_start m).trace →
      s = effDelay m.envRetryWait) ∧
    (m.envRetryCount = none →
      (devsdk_service_start m).trace.countP isRegPing = 5) ∧
    (∀ e ∈ (devsdk_service_start m).trace, isBringupEv e = false) := by
  obtain ⟨r, hr⟩ : ∃ r, effRetries m.envRetryCount = r + 1 :=
    ⟨effRetries m.envRetryCount - 1, by
      have := effRetries_pos m.envRetryCount
      omega⟩
  have hstart : devsdk_service_start m = startWithRegistry m false [.registryGet] := by
    unfold devsdk_service_start
    rw [hu]
    dsimp only
    rw [if_neg hne, if_pos hreg]
  have hwait : registryWait m.regPing (effDelay m.envRetryWait) 0
      (effRetries m.envRetryCount) =
      (0, pingFailTrace (effDelay m.envRetryWait) (r + 1)) := by
    rw [hr]
    exact registryWait_allFail m.regPing hping _ r 0
  have htr : devsdk_service_start m =
      { err := EDGEX_REMOTE_SERVER_DOWN
        trace := ([StEv.registryGet] ++
          pingFailTrace (effDelay m.envRetryWait) (r + 1)) ++ [StEv.logError] } := by
    rw [hstart]
    unfold startWithRegistry
    dsimp only
    rw [hwait]
    dsimp only
    rw [if_pos rfl]
  rw [htr]
  have hcount : (([StEv.registryGet] ++
      pingFailTrace (effDelay m.envRetryWait) (r + 1)) ++
      [StEv.logError]).countP isRegPing = effRetries m.envRetryCount := by
    simp [List.countP_append, List.countP_cons, isRegPing,
      pingFailTrace_countPing, hr]
  refine ⟨rfl, hcount, ?_, ?_, ?_, ?_⟩
  · simp [List.countP_append, List.countP_cons, isRegPing, isSleep,
      pingFailTrace_countSleep, hr]
  · intro s hs
    simp only [List.mem_append, List.mem_cons, List.not_mem_nil, or_false] at hs
    rcases hs with (hs | hs) | hs
    · cases hs
    · exact pingFailTrace_sleeps _ _ s hs
    · cases hs
  · intro hnone
    rw [hcount, hnone]
    rfl
  · intro e he
    simp only [List.mem_append, List.mem_cons, List.not_mem_nil, or_false] at he
    rcases he with (rfl | he) | rfl
    · rfl
    · exact (pingOrSleep_not_special (pingFailTrace_kinds _ _ e he)).1
    · rfl

/-- Concrete start mocks for C3: registry configured but unreachable. -/
def stM1 : StartMocks :=
  { regURL := some "http://reg"
    loadConfigErr := 0
    tomlRegURL := none
    registryGetOk := true
    envRetryCount := none
    envRetryWait := none
    regPing := fun _ => false
    getConfigOk := false
    populateConfigErr := 0
    putConfigErr := 0
    parseTomlClientsErr := 0
    useremote := false
    pingLoggingErr := 0
    sc := scM1 }

/-- C3 witness: the unreachable-registry run on concrete mocks makes
exactly the 5 default ping attempts and fails with REMOTE_SERVER_DOWN. -/
theorem claim_C3_witness :
    (devsdk_service_start stM1).err = EDGEX_REMOTE_SERVER_DOWN ∧
    (devsdk_service_start stM1).trace.countP isRegPing = 5 := by
  have h := claim_C3 stM1 "http://reg" rfl (by decide) rfl (fun _ => rfl)
  exact ⟨h.1, h.2.2.2.2.1 rfl⟩

lemma afterConfigRegistry_suffix (m : StartMocks) (t : List StEv) :
    ∃ s, (afterConfigRegistry m t).trace = t ++ s ∧
      ∀ e ∈ s, isPutConfig e = false ∧ isLoadConfigEv e = false ∧
        isPopulateConfigEv e = false ∧ isOverrideConfigEv e = false := by
  unfold afterConfigRegistry
  dsimp only
  split
  · refine ⟨[StEv.queryService "edgex-core-metadata",
      .queryService "edgex-core-data", .queryService "edgex-support-logging",
      .pingLogging], by simp, ?_⟩
    intro e he
    fin_cases he <;> exact ⟨rfl, rfl, rfl, rfl⟩
  · refine ⟨[StEv.queryService "edgex-core-metadata",
        .queryService "edgex-core-data", .queryService "edgex-support-logging"] ++
      (if m.useremote then [StEv.pingLogging] else []) ++
      [StEv.logInfo, .logInfo] ++
      (startConfigured m.sc).trace.map StEv.bringup ++
      (if (startConfigured m.sc).err = 0 then [StEv.logInfo, .logInfo] else []),
      by simp [List.append_assoc], ?_⟩
    simp only [List.forall_mem_append]
    refine ⟨⟨⟨⟨?_, ?_⟩, ?_⟩, ?_⟩, ?_⟩
    · intro e he
      fin_cases he <;> exact ⟨rfl, rfl, rfl, rfl⟩
    · split
      · intro e he
        fin_cases he
        exact ⟨rfl, rfl, rfl, rfl⟩
      · intro e he
        cases he
    · intro e he
      fin_cases he <;> exact ⟨rfl, rfl, rfl, rfl⟩
    · intro e he
      obtain ⟨x, -, rfl⟩ := List.mem_map.mp he
      exact ⟨rfl, rfl, rfl, rfl⟩
    · split
      · intro e he
        fin_cases he <;> exact ⟨rfl, rfl, rfl, rfl⟩
      · intro e he
        cases he

/-- The shape of a first-run (empty registry) start: the upload block
loadConfig, parseToml, populateConfig, overrideConfig, put_config sits
right after the registry wait and get_config, and everything after the
put is free of configuration-upload events; on a put failure the run
stops with just an error log. -/
lemma start_upload_shape (m : StartMocks) (u : String) (hu : m.regURL = some u)
    (hne : u ≠ "") (hreg : m.registryGetOk = true)
    (hreach : (registryWait m.regPing (effDelay m.envRetryWait) 0
      (effRetries m.envRetryCount)).1 ≠ 0)
    (hconf : m.getConfigOk = false) (hload : m.loadConfigErr = 0) :
    ∃ s : List StEv,
      (devsdk_service_start m).trace =
        StEv.registryGet ::
          ((registryWait m.regPing (effDelay m.envRetryWait) 0
              (effRetries m.envRetryCount)).2 ++
            (StEv.logInfo :: StEv.registryGetConfig :: StEv.logInfo :: StEv.logInfo ::
              StEv.loadConfig :: StEv.parseToml :: StEv.populateConfig :: StEv.logInfo ::
              StEv.overrideConfig :: StEv.registryPutConfig :: s)) ∧
      (∀ e ∈ s, isPutConfig e = false ∧ isLoadConfigEv e = false ∧
        isPopulateConfigEv e = false ∧ isOverrideConfigEv e = false) ∧
      (m.putConfigErr ≠ 0 → s = [StEv.logError] ∧
        (devsdk_service_start m).err = m.putConfigErr) := by
  have hstart : devsdk_service_start m = startWithRegistry m false [.registryGet] := by
    unfold devsdk_service_start
    rw [hu]
    dsimp only
    rw [if_neg hne, if_pos hreg]
  by_cases hput : m.putConfigErr = 0
  · have hform : devsdk_service_start m =
        afterConfigRegistry m (((((([StEv.registryGet] ++
          (registryWait m.regPing (effDelay m.envRetryWait) 0
            (effRetries m.envRetryCount)).2) ++
          [StEv.logInfo, .registryGetConfig]) ++ [StEv.logInfo, .logInfo]) ++
          [StEv.loadConfig]) ++ [StEv.parseToml, .populateConfig, .logInfo,
            .overrideConfig, .registryPutConfig])) := by
      rw [hstart]
      unfold startWithRegistry
      dsimp only
      rw [if_neg hreach, if_neg (show ¬(m.getConfigOk = true) by simp [hconf]),
        if_neg (show ¬((!false && decide (m.loadConfigErr ≠ 0)) = true) by
          simp [hload]),
        if_neg (show ¬(false = true) by simp),
        if_neg (show ¬(m.putConfigErr ≠ 0) from fun h => h hput)]
    obtain ⟨s, hs, hprops⟩ := afterConfigRegistry_suffix m _
    rw [hform, hs]
    refine ⟨s, by simp [List.append_assoc], hprops, fun hc => (hc hput).elim⟩
  · refine ⟨[StEv.logError], ?_, ?_, fun _ => ⟨rfl, ?_⟩⟩
    · rw [hstart]
      unfold startWithRegistry
      dsimp only
      rw [if_neg hreach, if_neg (show ¬(m.getConfigOk = true) by simp [hconf]),
        if_neg (show ¬((!false && decide (m.loadConfigErr ≠ 0)) = true) by
          simp [hload]),
        if_neg (show ¬(false = true) by simp), if_pos hput]
      simp [List.append_assoc]
    · intro e he
      fin_cases he
      exact ⟨rfl, rfl, rfl, rfl⟩
    · rw [hstart]
      unfold startWithRegistry
      dsimp only
      rw [if_neg hreach, if_neg (show ¬(m.getConfigOk = true) by simp [hconf]),
        if_neg (show ¬((!false && decide (m.loadConfigErr ≠ 0)) = true) by
          simp [hload]),
        if_neg (show ¬(false = true) by simp), if_pos hput]

/-- C4: registry configured and reachable, get_config returns null: the
TOML is loaded, parsed and used to populate the typed configuration, the
environment overrides are applied before the upload, put_config is
called exactly once, every bring-up action happens only after the
upload, and a put_config failure aborts start before any bring-up. -/
theorem claim_C4 (m : StartMocks) (u : String) (hu : m.regURL = some u)
    (hne : u ≠ "") (hreg : m.registryGetOk = true)
    (hreach : (registryWait m.regPing (effDelay m.envRetryWait) 0
      (effRetries m.envRetryCount)).1 ≠ 0)
    (hconf : m.getConfigOk = false) (hload : m.loadConfigErr = 0) :
    StEv.loadConfig ∈ (devsdk_service_start m).trace ∧
    StEv.parseToml ∈ (devsdk_service_start m).trace ∧
    StEv.populateConfig ∈ (devsdk_service_start m).trace ∧
    StEv.overrideConfig ∈ (devsdk_service_start m).trace ∧
    (devsdk_service_start m).trace.countP isPutConfig = 1 ∧
    precedesAllB isLoadConfigEv isPutConfig (devsdk_service_start m).trace = true ∧
    precedesAllB isPopulateConfigEv isPutConfig (devsdk_service_start m).trace = true ∧
    precedesAllB isOverrideConfigEv isPutConfig (devsdk_service_start m).trace = true ∧
    precedesAllB isPutConfig isBringupEv (devsdk_service_start m).trace = true ∧
    (m.putConfigErr ≠ 0 → (devsdk_service_start m).err = m.putConfigErr ∧
      ∀ e ∈ (devsdk_service_start m).trace, isBringupEv e = false) := by
  obtain ⟨s, htr, hs, habort⟩ := start_upload_shape m u hu hne hreg hreach hconf hload
  have hw2 : ∀ e ∈ (registryWait m.regPing (effDelay m.envRetryWait) 0
      (effRetries m.envRetryCount)).2,
      isBringupEv e = false ∧ isPutConfig e = false ∧ isLoadConfigEv e = false ∧
      isPopulateConfigEv e = false ∧ isOverrideConfigEv e = false :=
    fun e he => pingOrSleep_not_special (registryWait_kinds m.regPing _ _ 0 e he)
  rw [htr]
  have hcw : ∀ p : StEv → Bool,
      (∀ e ∈ (registryWait m.regPing (effDelay m.envRetryWait) 0
        (effRetries m.envRetryCount)).2, p e = false) →
      ((registryWait m.regPing (effDelay m.envRetryWait) 0
        (effRetries m.envRetryCount)).2).countP p = 0 :=
    fun p hp => List.countP_eq_zero.mpr (fun e he => by simp [hp e he])
  refine ⟨by simp, by simp, by simp, by simp, ?_, ?_, ?_, ?_, ?_, ?_⟩
  · have h1 := hcw isPutConfig (fun e he => (hw2 e he).2.1)
    have h2 : s.countP isPutConfig = 0 :=
      List.countP_eq_zero.mpr (fun e he => by simp [(hs e he).1])
    simp [List.countP_cons, List.countP_append, h1, h2, isPutConfig]
  · rw [precedesAllB_cons_skip _ _ _ _ rfl rfl,
      precedesAllB_append _ _ _ _ (fun e he => ⟨(hw2 e he).2.2.1, (hw2 e he).2.1⟩),
      precedesAllB_cons_skip _ _ _ _ rfl rfl, precedesAllB_cons_skip _ _ _ _ rfl rfl,
      precedesAllB_cons_skip _ _ _ _ rfl rfl, precedesAllB_cons_skip _ _ _ _ rfl rfl]
    exact precedesAllB_cons_commit _ _ _ _ rfl rfl
  · rw [precedesAllB_cons_skip _ _ _ _ rfl rfl,
      precedesAllB_append _ _ _ _ (fun e he => ⟨(hw2 e he).2.2.2.1, (hw2 e he).2.1⟩),
      precedesAllB_cons_skip _ _ _ _ rfl rfl, precedesAllB_cons_skip _ _ _ _ rfl rfl,
      precedesAllB_cons_skip _ _ _ _ rfl rfl, precedesAllB_cons_skip _ _ _ _ rfl rfl,
      precedesAllB_cons_skip _ _ _ _ rfl rfl, precedesAllB_cons_skip _ _ _ _ rfl rfl]
    exact precedesAllB_cons_commit _ _ _ _ rfl rfl
  · rw [precedesAllB_cons_skip _ _ _ _ rfl rfl,
      precedesAllB_append _ _ _ _ (fun e he => ⟨(hw2 e he).2.2.2.2, (hw2 e he).2.1⟩),
      precedesAllB_cons_skip _ _ _ _ rfl rfl, precedesAllB_cons_skip _ _ _ _ rfl rfl,
      precedesAllB_cons_skip _ _ _ _ rfl rfl, precedesAllB_cons_skip _ _ _ _ rfl rfl,
      precedesAllB_cons_skip _ _ _ _ rfl rfl, precedesAllB_cons_skip _ _ _ _ rfl rfl,
      precedesAllB_cons_skip _ _ _ _ rfl rfl, precedesAllB_cons_skip _ _ _ _ rfl rfl]
    exact precedesAllB_cons_commit _ _ _ _ rfl rfl
  · rw [precedesAllB_cons_skip _ _ _ _ rfl rfl,
      precedesAllB_append _ _ _ _ (fun e he => ⟨(hw2 e he).2.1, (hw2 e he).1⟩),
      precedesAllB_cons_skip _ _ _ _ rfl rfl, precedesAllB_cons_skip _ _ _ _ rfl rfl,
      precedesAllB_cons_skip _ _ _ _ rfl rfl, precedesAllB_cons_skip _ _ _ _ rfl rfl,
      precedesAllB_cons_skip _ _ _ _ rfl rfl, precedesAllB_cons_skip _ _ _ _ rfl rfl,
      precedesAllB_cons_skip _ _ _ _ rfl rfl, precedesAllB_cons_skip _ _ _ _ rfl rfl,
      precedesAllB_cons_skip _ _ _ _ rfl rfl]
    exact precedesAllB_cons_commit _ _ _ _ rfl rfl
  · intro hc
    obtain ⟨hse, herr⟩ := habort hc
    subst hse
    refine ⟨herr, ?_⟩
    intro e he
    rcases List.mem_cons.mp he with rfl | he2
    · rfl
    · rcases List.mem_append.mp he2 with hw | hrest
      · exact (hw2 e hw).1
      · fin_cases hrest <;> rfl

/-- Concrete start mocks for C4: registry reachable, empty get_config. -/
def stM2 : StartMocks :=
  { stM1 with regPing := fun _ => true }

/-- C4 witness: on the concrete first-run mocks the TOML is loaded and
put_config is issued exactly once. -/
theorem claim_C4_witness :
    StEv.loadConfig ∈ (devsdk_service_start stM2).trace ∧
    (devsdk_service_start stM2).trace.countP isPutConfig = 1 := by
  have h := claim_C4 stM2 "http://reg" rfl (by decide) rfl (by decide) rfl rfl
  exact ⟨h.1, h.2.2.2.2.1⟩

/-! ## Event posting (claim C5) -/

def isEnqueue : PostEv → Bool
  | .enqueueWork => true
  | _ => false

/-- C5: devsdk_post_readings submits at most one work item per call; when
the device or the resource is missing it logs and submits nothing (the C
function has no error out-parameter, so there is no error to report);
and when the device is found the handle is released immediately after
the profile pointer is used by the command lookup, before anything else
happens. -/
theorem claim_C5 (m : PostMocks) :
    (devsdk_post_readings m).countP isEnqueue ≤ 1 ∧
    (m.deviceFound = false ∨ m.commandFound = false →
      PostEv.logError ∈ devsdk_post_readings m ∧
      (devsdk_post_readings m).countP isEnqueue = 0) ∧
    (m.deviceFound = true →
      ∃ rest, devsdk_post_readings m =
        PostEv.devmapLookup m.devname :: PostEv.findCommand m.resname ::
          PostEv.deviceRelease :: rest) := by
  rcases hd : m.deviceFound <;> rcases hc : m.commandFound <;>
    rcases he : m.eventProduced <;>
    refine ⟨?_, ?_, ?_⟩ <;>
    simp [devsdk_post_readings, hd, hc, he, isEnqueue, List.countP_cons]

/-- Concrete post mocks: no device named ghost exists. -/
def postM1 : PostMocks :=
  { devname := "ghost"
    resname := "r"
    deviceFound := false
    commandFound := false
    eventProduced := false }

/-- C5 witness: the missing-device call logs and enqueues nothing. -/
theorem claim_C5_witness :
    PostEv.logError ∈ devsdk_post_readings postM1 ∧
    (devsdk_post_readings postM1).countP isEnqueue = 0 :=
  (claim_C5 postM1).2.1 (Or.inl rfl)

/-! ## Shutdown (claim C6) -/

/-- Stop mocks on which registry deregistration fails with code 7. -/
def stopM1 : StopMocks :=
  { force := false
    stopconfigPresent := true
    schedulerPresent := true
    daemonPresent := true
    registryPresent := true
    deregisterErr := 7 }

/-- C6 counterexample: when registry deregistration fails, the error
out-parameter still holds the deregistration failure code when
devsdk_service_stop returns, so it does not report success. -/
theorem claim_C6_counterexample :
    (devsdk_service_stop stopM1).1 ≠ 0 := by
  decide

/-- C6 (amended): devsdk_service_stop always runs to completion, through
driver stop, device map clear, scheduler free, worker pool drain and the
final log, and a deregistration failure is logged; however the error
out-parameter is not reset after a failed deregistration: it reports the
deregistration error code when the registry is present, and 0
otherwise. -/
theorem claim_C6_amended (m : StopMocks) :
    (devsdk_service_stop m).1 =
      (if m.registryPresent then m.deregisterErr else 0) ∧
    (m.registryPresent = true → m.deregisterErr ≠ 0 →
      StopEv.logError ∈ (devsdk_service_stop m).2) ∧
    StopEv.driverStop m.force ∈ (devsdk_service_stop m).2 ∧
    StopEv.devmapClear ∈ (devsdk_service_stop m).2 ∧
    (devsdk_service_stop m).2.reverse.take 3 =
      [StopEv.logInfo, .threadpoolWait, .schedulerFree] := by
  rcases h1 : m.stopconfigPresent <;> rcases h2 : m.schedulerPresent <;>
    rcases h3 : m.daemonPresent <;> rcases h4 : m.registryPresent <;>
    by_cases h5 : m.deregisterErr = 0 <;>
    refine ⟨?_, ?_, ?_, ?_, ?_⟩ <;>
    simp [devsdk_service_stop, EDGEX_OK, h1, h2, h3, h4, h5]

/-- C6 witness: on the concrete failing deregistration, the failure is
logged and the driver stop still ran. -/
theorem claim_C6_witness :
    StopEv.logError ∈ (devsdk_service_stop stopM1).2 ∧
    StopEv.driverStop false ∈ (devsdk_service_stop stopM1).2 :=
  ⟨(claim_C6_amended stopM1).2.1 rfl (by decide),
   (claim_C6_amended stopM1).2.2.1⟩

end DevSdk
